import Mathlib

/-
Verification of the IS-04 / IS-05 interoperability test module (IS0502Test.py).

The module is shallowly embedded: the two per-kind resource caches become an
explicit state record threaded through the fetch operations, HTTP requests
become oracle arguments describing the outcome of the one request a function
performs, and Python dict-key accesses that may raise KeyError become Option
lookups whose none case maps to the message of the enclosing except handler.
-/

namespace IS0502

/-- A JSON scalar value as decoded from an API response body.  Only scalar
shapes are needed by the checks under verification; Python's `is not False`
and `is not None` tests translate to inequality with `.bool false` / `.null`. -/
inductive JVal where
  | null : JVal
  | bool : Bool → JVal
  | num : Int → JVal
  | str : String → JVal
deriving DecidableEq, Repr

/-- The two resource kinds accepted by the module's asserts
(`resource_type in ["senders", "receivers"]`). -/
inductive ResourceType where
  | senders : ResourceType
  | receivers : ResourceType
deriving DecidableEq, Repr

/-- `resource_type.rstrip("s").capitalize()` as used in failure messages. -/
def rtSingularCap : ResourceType → String
  | .senders => "Sender"
  | .receivers => "Receiver"

/-- `"sender_id"` / `"receiver_id"`: the cross-reference key inspected by
`activate_check_parked` (`receiver_id` for senders, `sender_id` for receivers). -/
def idKeyName : ResourceType → String
  | .senders => "receiver_id"
  | .receivers => "sender_id"

/-- The `subscription` object of an IS-04 resource; each field is `none` when
the corresponding key is absent (a lookup then raises KeyError in Python). -/
structure Subscription where
  active : Option JVal
  sender_id : Option JVal
  receiver_id : Option JVal
deriving DecidableEq, Repr

/-- `subscription[id_key]` for the kind-dependent cross-reference key. -/
def crossId (rt : ResourceType) (sub : Subscription) : Option JVal :=
  match rt with
  | .senders => sub.receiver_id
  | .receivers => sub.sender_id

/-- An IS-04 Sender or Receiver object, restricted to the keys the module
reads.  `version` and `subscription` are optional because the code catches
KeyError on them; the remaining keys are accessed only where the enclosing
test treats them as present. -/
structure NodeResource where
  id : String
  transport : String
  version : Option JVal
  subscription : Option Subscription
  manifest_href : String
deriving DecidableEq, Repr

/-- Outcome of one `do_request("GET", url)` whose body is then `.json()`ed:
`invalid err` is `(False, err)` from `do_request`, `nonJson` is a
`json.decoder.JSONDecodeError`, `ok` carries the decoded value. -/
inductive FetchResult (α : Type) where
  | invalid (err : String) : FetchResult α
  | nonJson : FetchResult α
  | ok (data : α) : FetchResult α
deriving DecidableEq, Repr

/-- Verdict of a single test case: `test.PASS()`, `test.FAIL(msg)`, `test.NA(msg)`. -/
inductive Verdict where
  | pass : Verdict
  | fail (msg : String) : Verdict
  | na (msg : String) : Verdict
deriving DecidableEq, Repr

/-- Python `s.rstrip("/")`: remove every trailing `/`. -/
def pyRstripSlash (s : String) : String :=
  String.mk ((s.toList.reverse.dropWhile (fun c => c = '/')).reverse)

/-- The `self.is04_resources` dict: a resource list per kind plus the
`"_requested"` marker list. -/
structure Is04Resources where
  senders : List NodeResource
  receivers : List NodeResource
  requested : List ResourceType
deriving DecidableEq, Repr

def Is04Resources.list (st : Is04Resources) : ResourceType → List NodeResource
  | .senders => st.senders
  | .receivers => st.receivers

def Is04Resources.setList (st : Is04Resources) : ResourceType → List NodeResource → Is04Resources
  | .senders, l => { st with senders := l }
  | .receivers, l => { st with receivers := l }

/-- The `self.is05_resources` dict: an id list per kind plus the
`"_requested"` marker list. -/
structure Is05Resources where
  senders : List String
  receivers : List String
  requested : List ResourceType
deriving DecidableEq, Repr

def Is05Resources.list (st : Is05Resources) : ResourceType → List String
  | .senders => st.senders
  | .receivers => st.receivers

def Is05Resources.setList (st : Is05Resources) : ResourceType → List String → Is05Resources
  | .senders, l => { st with senders := l }
  | .receivers, l => { st with receivers := l }

/-- `get_is04_resources`: returns `(valid, message)` and the updated cache.
The `fetched` oracle is the outcome of the one GET the function would issue. -/
def get_is04_resources (fetched : FetchResult (List NodeResource))
    (st : Is04Resources) (rt : ResourceType) : (Bool × String) × Is04Resources :=
  if rt ∈ st.requested then ((true, ""), st)
  else
    match fetched with
    | .invalid err => ((false, "Node API did not respond as expected: " ++ err), st)
    | .nonJson => ((false, "Non-JSON response returned from Node API"), st)
    | .ok rs =>
        ((true, ""),
          { st.setList rt (st.list rt ++ rs) with requested := st.requested ++ [rt] })

/-- `refresh_is04_resources`: drop the kind's `_requested` marker (first
occurrence, as Python `list.remove`) and re-run `get_is04_resources`. -/
def refresh_is04_resources (fetched : FetchResult (List NodeResource))
    (st : Is04Resources) (rt : ResourceType) : (Bool × String) × Is04Resources :=
  get_is04_resources fetched { st with requested := st.requested.erase rt } rt

/-- `get_is05_resources`: like the IS-04 fetch but each returned id gets its
trailing `/` stripped; the non-JSON message names the Node API, as in source. -/
def get_is05_resources (fetched : FetchResult (List String))
    (st : Is05Resources) (rt : ResourceType) : (Bool × String) × Is05Resources :=
  if rt ∈ st.requested then ((true, ""), st)
  else
    match fetched with
    | .invalid err => ((false, "Connection API did not respond as expected: " ++ err), st)
    | .nonJson => ((false, "Non-JSON response returned from Node API"), st)
    | .ok rs =>
        ((true, ""),
          { st.setList rt (st.list rt ++ rs.map pyRstripSlash) with
              requested := st.requested ++ [rt] })

/-- `get_valid_transports`, parameterised by the Connection API's advertised
`major_version`/`minor_version`. -/
def get_valid_transports (connMajor connMinor : Nat) : List String :=
  let base := ["urn:x-nmos:transport:rtp",
               "urn:x-nmos:transport:rtp.mcast",
               "urn:x-nmos:transport:rtp.ucast",
               "urn:x-nmos:transport:dash"]
  if connMajor > 1 ∨ (connMajor = 1 ∧ connMinor ≥ 1) then
    base ++ ["urn:x-nmos:transport:websocket", "urn:x-nmos:transport:mqtt"]
  else base

/-- Loop body of `check_is04_in_is05`: the accumulator is the `result` flag,
set to `False` on an in-scope resource missing from the IS-05 list. -/
def check0405Loop (connMajor connMinor : Nat) (is05ids : List String) :
    List NodeResource → Bool → Bool
  | [], result => result
  | r :: rest, result =>
      if r.transport ∈ get_valid_transports connMajor connMinor then
        if r.id ∉ is05ids then check0405Loop connMajor connMinor is05ids rest false
        else check0405Loop connMajor connMinor is05ids rest result
      else check0405Loop connMajor connMinor is05ids rest result

/-- `check_is04_in_is05`. -/
def check_is04_in_is05 (connMajor connMinor : Nat)
    (is04 : Is04Resources) (is05 : Is05Resources) (rt : ResourceType) : Bool :=
  check0405Loop connMajor connMinor (is05.list rt) (is04.list rt) true

/-- Loop of `check_is05_in_is04`: the inner for/break sets `is05_res_ok` when
some IS-04 resource matches, and the outer loop breaks on the first miss. -/
def check0504Loop (is04list : List NodeResource) : List String → Bool
  | [] => true
  | id :: rest =>
      if is04list.any (fun r => r.id = id) then check0504Loop is04list rest
      else false

/-- `check_is05_in_is04`. -/
def check_is05_in_is04 (is04 : Is04Resources) (is05 : Is05Resources)
    (rt : ResourceType) : Bool :=
  check0504Loop (is04.list rt) (is05.list rt)

/-- Split a character list at the first occurrence of `c`; `none` when absent. -/
def splitOnFirst (c : Char) : List Char → Option (List Char × List Char)
  | [] => none
  | x :: xs =>
      if x = c then some ([], xs)
      else (splitOnFirst c xs).map (fun p => (x :: p.1, p.2))

/-- `netloc.rpartition("@")[2]`: everything after the last `@`
(the whole string when there is none). -/
def afterLastAt (l : List Char) : List Char :=
  (l.reverse.takeWhile (fun c => c ≠ '@')).reverse

/-- Characters admissible in a URL scheme (`urllib.parse.scheme_chars`). -/
def isSchemeChar (c : Char) : Bool :=
  c.isAlpha || c.isDigit || c = '+' || c = '-' || c = '.'

/-- The fields of a `urllib.parse.urlparse` result that `compare_urls` and
`test_02` read, with the derived `hostname`/`port` attributes precomputed. -/
structure UrlParsed where
  scheme : String
  netloc : String
  path : String
  params : String
  query : String
  fragment : String
  hostname : Option String
  port : Option Nat
deriving DecidableEq, Repr

/-- `urllib.parse._hostinfo` on a netloc: the `(hostname, port-digits)` pair
before lowercasing and numeric conversion. -/
def hostPortRaw (netloc : List Char) : List Char × Option (List Char) :=
  let hostinfo := afterLastAt netloc
  match splitOnFirst '[' hostinfo with
  | some (_, bracketed) =>
      match splitOnFirst ']' bracketed with
      | some (host, afterBr) =>
          match splitOnFirst ':' afterBr with
          | some (_, port) => (host, some port)
          | none => (host, none)
      | none => (bracketed, none)
  | none =>
      match splitOnFirst ':' hostinfo with
      | some (host, port) => (host, some port)
      | none => (hostinfo, none)

def digitsToNat (cs : List Char) : Nat :=
  cs.foldl (fun n c => n * 10 + (c.toNat - '0'.toNat)) 0

/-- The `hostname` attribute: lowercased host, `none` when empty. -/
def hostnameOfNetloc (netloc : List Char) : Option String :=
  let h := (hostPortRaw netloc).1
  if h = [] then none else some (String.mk (h.map Char.toLower))

/-- The `port` attribute: `none` when absent or empty.  CPython raises
ValueError on a non-numeric or out-of-range port when the attribute is read;
such URLs are outside the behaviour the tests exercise and map to `none`. -/
def portOfNetloc (netloc : List Char) : Option Nat :=
  match (hostPortRaw netloc).2 with
  | none => none
  | some [] => none
  | some cs => if cs.all Char.isDigit then some (digitsToNat cs) else none

/-- `urllib.parse._splitparams` restricted to its path component: drop a
`;params` suffix of the last path segment. -/
def splitparamsPath (p : List Char) : List Char :=
  if '/' ∈ p then
    let lastSeg := (p.reverse.takeWhile (fun c => c ≠ '/')).reverse
    let stem := p.take (p.length - lastSeg.length)
    if ';' ∈ lastSeg then stem ++ lastSeg.takeWhile (fun c => c ≠ ';') else p
  else p.takeWhile (fun c => c ≠ ';')

/-- `urllib.parse._splitparams`, params component. -/
def splitparamsParams (p : List Char) : List Char :=
  if '/' ∈ p then
    let lastSeg := (p.reverse.takeWhile (fun c => c ≠ '/')).reverse
    if ';' ∈ lastSeg then (lastSeg.dropWhile (fun c => c ≠ ';')).drop 1 else []
  else (p.dropWhile (fun c => c ≠ ';')).drop 1

/-- Models CPython 3.11 `urllib.parse.urlparse` on URLs free of ASCII
tab/newline: split off the scheme (first `:` after an alphabetic head of
scheme characters, lowercased), then a `//`-introduced netloc up to the first
`/`, `?` or `#`, then the fragment at the first `#`, then the query at the
first `?`, and finally the `;params` of the last path segment. -/
def urlparse (url : String) : UrlParsed :=
  let cs := url.toList
  let (scheme, rest) :=
    match splitOnFirst ':' cs with
    | some (pre, post) =>
        match pre with
        | [] => (([] : List Char), cs)
        | c0 :: _ =>
            if c0.isAlpha ∧ pre.all isSchemeChar then (pre.map Char.toLower, post)
            else ([], cs)
    | none => ([], cs)
  let (netloc, rest2) :=
    if rest.take 2 = ['/', '/'] then
      let after := rest.drop 2
      (after.takeWhile (fun c => c ≠ '/' ∧ c ≠ '?' ∧ c ≠ '#'),
       after.dropWhile (fun c => c ≠ '/' ∧ c ≠ '?' ∧ c ≠ '#'))
    else ([], rest)
  let (rest3, fragment) :=
    match splitOnFirst '#' rest2 with
    | some (a, b) => (a, b)
    | none => (rest2, [])
  let (rawPath, query) :=
    match splitOnFirst '?' rest3 with
    | some (a, b) => (a, b)
    | none => (rest3, [])
  { scheme := String.mk scheme
    netloc := String.mk netloc
    path := String.mk (splitparamsPath rawPath)
    params := String.mk (splitparamsParams rawPath)
    query := String.mk query
    fragment := String.mk fragment
    hostname := hostnameOfNetloc netloc
    port := portOfNetloc netloc }

/-- `compare_urls`: strip trailing slashes, parse, compare scheme, hostname
and path in order, then compare ports after substituting the scheme default
for an absent port. -/
def compare_urls (url1 url2 : String) : Bool :=
  let u1 := urlparse (pyRstripSlash url1)
  let u2 := urlparse (pyRstripSlash url2)
  if u1.scheme ≠ u2.scheme then false
  else if u1.hostname ≠ u2.hostname then false
  else if u1.path ≠ u2.path then false
  else
    let p1 := if u1.port = none ∧ u1.scheme = "http" then some 80
              else if u1.port = none ∧ u1.scheme = "https" then some 443
              else u1.port
    let p2 := if u2.port = none ∧ u2.scheme = "http" then some 80
              else if u2.port = none ∧ u2.scheme = "https" then some 443
              else u2.port
    if p1 ≠ p2 then false else true

/-- Follows the spec's words (section 4.4): the effective port of a parsed
URL, an absent port normalised to 80 for `http` and 443 for `https`. -/
def specEffectivePort (u : UrlParsed) : Option Nat :=
  match u.port with
  | some p => some p
  | none =>
      if u.scheme = "http" then some 80
      else if u.scheme = "https" then some 443
      else none

def versionNotFoundMsg : String :=
  "Version attribute was not found in IS-04 resource"

def nodeNotRespondMsg (err : String) : String :=
  "Node API did not respond as expected: " ++ err

def nonJsonNodeMsg : String :=
  "Non-JSON response returned from Node API"

def versionUnchangedMsg (rt : ResourceType) (id : String) : String :=
  "IS-04 resource version did not change when " ++ rtSingularCap rt ++ " " ++ id
    ++ " was activated"

def notFound04Msg (id : String) : String :=
  "Unable to find an IS-04 resource with ID " ++ id

/-- Inner loop of `activate_check_version` for one IS-05 id: scan the IS-04
list tracking `found_04_resource`; an early `return False, msg` (including the
caught JSONDecodeError / KeyError paths, whose handlers return immediately)
becomes `.error`, falling off the loop yields `.ok found`.  The oracles give
the outcome of `check_activation` and of the single-resource re-fetch. -/
def acvInner (checkActivation : String → Bool × String)
    (fetchSingle : String → FetchResult (List (String × JVal)))
    (compare_version : JVal → JVal → Int) (rt : ResourceType) (id : String) :
    List NodeResource → Bool → Except (Bool × String) Bool
  | [], found => .ok found
  | r :: rest, found =>
      if r.id = id then
        match r.version with
        | none => .error (false, versionNotFoundMsg)
        | some currentVer =>
            let (valid, response) := checkActivation id
            if !valid then .error (false, response)
            else
              match fetchSingle id with
              | .invalid err => .error (false, nodeNotRespondMsg err)
              | .nonJson => .error (false, nonJsonNodeMsg)
              | .ok obj =>
                  match (obj.find? (fun kv => kv.1 = "version")).map (fun kv => kv.2) with
                  | none => .error (false, versionNotFoundMsg)
                  | some newVer =>
                      if compare_version newVer currentVer ≠ 1 then
                        .error (false, versionUnchangedMsg rt id)
                      else acvInner checkActivation fetchSingle compare_version rt id rest true
      else acvInner checkActivation fetchSingle compare_version rt id rest found

/-- Outer loop of `activate_check_version` over the IS-05 id list. -/
def acvOuter (checkActivation : String → Bool × String)
    (fetchSingle : String → FetchResult (List (String × JVal)))
    (compare_version : JVal → JVal → Int) (rt : ResourceType)
    (is04list : List NodeResource) : List String → Bool × String
  | [] => (true, "")
  | id :: rest =>
      match acvInner checkActivation fetchSingle compare_version rt id is04list false with
      | .error e => e
      | .ok found =>
          if !found then (false, notFound04Msg id)
          else acvOuter checkActivation fetchSingle compare_version rt is04list rest

/-- `activate_check_version`. -/
def activate_check_version (checkActivation : String → Bool × String)
    (fetchSingle : String → FetchResult (List (String × JVal)))
    (compare_version : JVal → JVal → Int)
    (is04 : Is04Resources) (is05 : Is05Resources) (rt : ResourceType) : Bool × String :=
  acvOuter checkActivation fetchSingle compare_version rt (is04.list rt) (is05.list rt)

def subNotFoundMsg : String :=
  "Subscription attribute was not found in IS-04 resource"

def notInactiveMsg (rt : ResourceType) (id : String) : String :=
  "IS-04 " ++ rtSingularCap rt ++ " " ++ id
    ++ " was not marked as inactive when IS-05 master_enable set to false"

def stillSubscribedMsg (rt : ResourceType) (id : String) : String :=
  "IS-04 " ++ rtSingularCap rt ++ " " ++ id ++ " still indicates a subscribed \x27"
    ++ idKeyName rt ++ "\x27 when parked"

/-- First loop of `activate_check_parked`: park every IS-05 resource,
returning the first failing response. -/
def parkAll (park : String → Bool × String) : List String → Option String
  | [] => none
  | id :: rest =>
      let (valid, response) := park id
      if !valid then some response else parkAll park rest

/-- Inner loop of `activate_check_parked` for one IS-05 id.  A dict access
that would raise KeyError (`subscription`, `active`, the cross id key) maps to
the message of the enclosing `except KeyError` handler, which returns at once. -/
def acpInner (nodeMajor nodeMinor : Nat) (rt : ResourceType) (id : String) :
    List NodeResource → Bool → Except (Bool × String) Bool
  | [], found => .ok found
  | r :: rest, found =>
      if r.id = id then
        match r.subscription with
        | none => .error (false, subNotFoundMsg)
        | some sub =>
            match (if nodeMajor > 1 ∨ (nodeMajor = 1 ∧ nodeMinor > 1) then
                     match sub.active with
                     | none => some (false, subNotFoundMsg)
                     | some av =>
                         if av ≠ JVal.bool false then some (false, notInactiveMsg rt id)
                         else none
                   else none) with
            | some e => .error e
            | none =>
                match crossId rt sub with
                | none => .error (false, subNotFoundMsg)
                | some v =>
                    if v ≠ JVal.null then .error (false, stillSubscribedMsg rt id)
                    else acpInner nodeMajor nodeMinor rt id rest true
      else acpInner nodeMajor nodeMinor rt id rest found

/-- Outer subscription-inspection loop of `activate_check_parked`. -/
def acpOuter (nodeMajor nodeMinor : Nat) (rt : ResourceType)
    (is04list : List NodeResource) : List String → Bool × String
  | [] => (true, "")
  | id :: rest =>
      match acpInner nodeMajor nodeMinor rt id is04list false with
      | .error e => e
      | .ok found =>
          if !found then (false, notFound04Msg id)
          else acpOuter nodeMajor nodeMinor rt is04list rest

/-- `activate_check_parked`: park everything, force-refresh the IS-04 cache
(`refetch` is the outcome of that GET), then inspect each subscription.
Returns `(valid, message)` and the possibly refreshed IS-04 cache. -/
def activate_check_parked (park : String → Bool × String)
    (refetch : FetchResult (List NodeResource)) (nodeMajor nodeMinor : Nat)
    (is04 : Is04Resources) (is05 : Is05Resources) (rt : ResourceType) :
    (Bool × String) × Is04Resources :=
  match parkAll park (is05.list rt) with
  | some response => ((false, response), is04)
  | none =>
      let r := refresh_is04_resources refetch is04 rt
      if !r.1.1 then ((false, r.1.2), r.2)
      else (acpOuter nodeMajor nodeMinor rt (r.2.list rt) (is05.list rt), r.2)

def test08GuardMsg : String :=
  "IS-04 v1.1 and earlier Senders do not have a subscription object"

def noSendersMsg : String :=
  "Could not find any IS-05 Senders to test"

/-- `test_08_tx_activate_updates_sub`, with the Node API version and the
outcomes of every request it may issue passed as oracles. -/
def test_08 (nodeMajor nodeMinor : Nat)
    (f04 : FetchResult (List NodeResource)) (f05 : FetchResult (List String))
    (park : String → Bool × String) (refetch : FetchResult (List NodeResource))
    (is04 : Is04Resources) (is05 : Is05Resources) : Verdict :=
  if nodeMajor = 1 ∧ nodeMinor < 2 then .na test08GuardMsg
  else
    let g04 := get_is04_resources f04 is04 .senders
    if !g04.1.1 then .fail g04.1.2
    else
      let g05 := get_is05_resources f05 is05 .senders
      if !g05.1.1 then .fail g05.1.2
      else if (g05.2.list .senders).length = 0 then .na noSendersMsg
      else
        let acp := activate_check_parked park refetch nodeMajor nodeMinor g04.2 g05.2 .senders
        if !acp.1.1 then .fail acp.1.2 else .pass

def transportFileMismatchMsg (id : String) : String :=
  "Transport file contents for Sender \x27" ++ id
    ++ "\x27 do not match between IS-04 and IS-05"

/-- The URL `test_10` GETs on the Connection API for a sender's transport file. -/
def transportfileUrl (connUrl id : String) : String :=
  connUrl ++ "single/senders/" ++ id ++ "/transportfile"

/-- Per-sender loop of `test_10_transport_files_match`.  `fetchText url` is
the outcome of `do_request("GET", url)`: `none` when not valid (the transport
file variable then stays `None`), `some t` for a valid response with body `t`. -/
def test10Loop (fetchText : String → Option String) (connUrl : String)
    (connMajor connMinor : Nat) : List NodeResource → Verdict
  | [] => .pass
  | r :: rest =>
      if r.transport ∉ get_valid_transports connMajor connMinor then
        test10Loop fetchText connUrl connMajor connMinor rest
      else
        let is04File : Option String :=
          if r.manifest_href ≠ "" then fetchText r.manifest_href else none
        let is05File : Option String := fetchText (transportfileUrl connUrl r.id)
        if is04File ≠ is05File then .fail (transportFileMismatchMsg r.id)
        else test10Loop fetchText connUrl connMajor connMinor rest

/-- `test_10_transport_files_match`. -/
def test_10 (f04 : FetchResult (List NodeResource))
    (fetchText : String → Option String) (connUrl : String)
    (connMajor connMinor : Nat) (is04 : Is04Resources) : Verdict :=
  let g04 := get_is04_resources f04 is04 .senders
  if !g04.1.1 then .fail g04.1.2
  else test10Loop fetchText connUrl connMajor connMinor (g04.2.list .senders)

/-- Follows the spec's words: a Node API version `(major, minor)` is strictly
below 1.2. -/
def versionBelow_1_2 (major minor : Nat) : Prop :=
  major < 1 ∨ (major = 1 ∧ minor < 2)

instance (major minor : Nat) : Decidable (versionBelow_1_2 major minor) := by
  unfold versionBelow_1_2; infer_instance

/-- Follows the spec's words: a Node API version `(major, minor)` is at least
1.2. -/
def versionAtLeast_1_2 (major minor : Nat) : Prop :=
  major > 1 ∨ (major = 1 ∧ minor ≥ 2)

instance (major minor : Nat) : Decidable (versionAtLeast_1_2 major minor) := by
  unfold versionAtLeast_1_2; infer_instance

/-- C1: once a resource kind is in the `_requested` marker set, the matching
fetch operation succeeds with an empty message, ignores its request oracle
(performs no fetch) and leaves the whole cache untouched; `refresh` first
removes the kind's marker and then re-runs the fetch; and a successful fresh
fetch is what adds the marker. -/
theorem c1_requested_marker_stops_refetching
    (f04 : FetchResult (List NodeResource)) (f05 : FetchResult (List String))
    (st04 : Is04Resources) (st05 : Is05Resources) (rt : ResourceType) :
    (rt ∈ st04.requested → get_is04_resources f04 st04 rt = ((true, ""), st04)) ∧
    (rt ∈ st05.requested → get_is05_resources f05 st05 rt = ((true, ""), st05)) ∧
    refresh_is04_resources f04 st04 rt
      = get_is04_resources f04 { st04 with requested := st04.requested.erase rt } rt ∧
    (∀ rs, f04 = .ok rs → rt ∈ (get_is04_resources f04 st04 rt).2.requested) := by
  refine ⟨?_, ?_, rfl, ?_⟩
  · intro h; simp [get_is04_resources, h]
  · intro h; simp [get_is05_resources, h]
  · intro rs h
    subst h
    by_cases hm : rt ∈ st04.requested
    · simp [get_is04_resources, hm]
    · cases rt <;> simp [get_is04_resources, hm, Is04Resources.setList]

theorem c1_requested_marker_stops_refetching_witness :
    get_is04_resources (FetchResult.ok [])
        ⟨[], [], [ResourceType.senders]⟩ ResourceType.senders
      = ((true, ""), ⟨[], [], [ResourceType.senders]⟩) ∧
    get_is05_resources (FetchResult.invalid "boom")
        ⟨[], [], [ResourceType.senders]⟩ ResourceType.senders
      = ((true, ""), ⟨[], [], [ResourceType.senders]⟩) :=
  ⟨(c1_requested_marker_stops_refetching (FetchResult.ok []) (FetchResult.invalid "boom")
      ⟨[], [], [ResourceType.senders]⟩ ⟨[], [], [ResourceType.senders]⟩
      ResourceType.senders).1 (by decide),
   (c1_requested_marker_stops_refetching (FetchResult.ok []) (FetchResult.invalid "boom")
      ⟨[], [], [ResourceType.senders]⟩ ⟨[], [], [ResourceType.senders]⟩
      ResourceType.senders).2.1 (by decide)⟩

/-- C10: whenever a fetch operation returns a failure — transport error or
non-JSON body — the cache (both the per-kind list and the `_requested` marker
set) is returned exactly as it was. -/
theorem c10_failed_fetch_is_atomic
    (f04 : FetchResult (List NodeResource)) (f05 : FetchResult (List String))
    (st04 : Is04Resources) (st05 : Is05Resources) (rt : ResourceType) :
    ((get_is04_resources f04 st04 rt).1.1 = false →
      (get_is04_resources f04 st04 rt).2 = st04) ∧
    ((get_is05_resources f05 st05 rt).1.1 = false →
      (get_is05_resources f05 st05 rt).2 = st05) := by
  constructor
  · intro h
    by_cases hm : rt ∈ st04.requested
    · simp [get_is04_resources, hm]
    · cases f04 <;> simp_all [get_is04_resources, hm]
  · intro h
    by_cases hm : rt ∈ st05.requested
    · simp [get_is05_resources, hm]
    · cases f05 <;> simp_all [get_is05_resources, hm]

theorem c10_failed_fetch_is_atomic_witness :
    (get_is04_resources (FetchResult.invalid "down") ⟨[], [], []⟩ ResourceType.senders).2
      = ⟨[], [], []⟩ ∧
    (get_is05_resources (FetchResult.nonJson) ⟨[], [], []⟩ ResourceType.receivers).2
      = ⟨[], [], []⟩ :=
  ⟨(c10_failed_fetch_is_atomic (FetchResult.invalid "down") (FetchResult.nonJson)
      ⟨[], [], []⟩ ⟨[], [], []⟩ ResourceType.senders).1 (by decide),
   (c10_failed_fetch_is_atomic (FetchResult.invalid "down") (FetchResult.nonJson)
      ⟨[], [], []⟩ ⟨[], [], []⟩ ResourceType.receivers).2 (by decide)⟩

/-- C7: for every Connection API version, the valid-transport list contains
the MQTT and WebSocket URNs exactly when the version is at least 1.1, and
always contains the RTP, RTP-multicast, RTP-unicast and DASH URNs. -/
theorem c7_valid_transports_by_version (connMajor connMinor : Nat) :
    ("urn:x-nmos:transport:mqtt" ∈ get_valid_transports connMajor connMinor ↔
      (connMajor > 1 ∨ (connMajor = 1 ∧ connMinor ≥ 1))) ∧
    ("urn:x-nmos:transport:websocket" ∈ get_valid_transports connMajor connMinor ↔
      (connMajor > 1 ∨ (connMajor = 1 ∧ connMinor ≥ 1))) ∧
    "urn:x-nmos:transport:rtp" ∈ get_valid_transports connMajor connMinor ∧
    "urn:x-nmos:transport:rtp.mcast" ∈ get_valid_transports connMajor connMinor ∧
    "urn:x-nmos:transport:rtp.ucast" ∈ get_valid_transports connMajor connMinor ∧
    "urn:x-nmos:transport:dash" ∈ get_valid_transports connMajor connMinor := by
  by_cases h : connMajor > 1 ∨ (connMajor = 1 ∧ connMinor ≥ 1) <;>
    simp [get_valid_transports, h]

/-- Loop characterisation for `check_is04_in_is05`: the final flag is true
exactly when it started true and no in-scope resource is missing. -/
theorem check0405Loop_eq_true_iff (connMajor connMinor : Nat) (ids : List String)
    (l : List NodeResource) (b : Bool) :
    check0405Loop connMajor connMinor ids l b = true ↔
      (b = true ∧ ∀ r ∈ l,
        r.transport ∈ get_valid_transports connMajor connMinor → r.id ∈ ids) := by
  induction l generalizing b with
  | nil => simp [check0405Loop]
  | cons r rest ih =>
      by_cases ht : r.transport ∈ get_valid_transports connMajor connMinor
      · by_cases hid : r.id ∈ ids
        · simp [check0405Loop, ht, hid, ih]
        · simp [check0405Loop, ht, hid, ih]
      · simp [check0405Loop, ht, ih]

/-- C2: `check_is04_in_is05` returns true exactly when every cached IS-04
resource of the kind whose transport is in the valid-transport list has its
id in the cached IS-05 id list; out-of-scope transports are ignored. -/
theorem c2_check_is04_in_is05_iff (connMajor connMinor : Nat)
    (is04 : Is04Resources) (is05 : Is05Resources) (rt : ResourceType) :
    check_is04_in_is05 connMajor connMinor is04 is05 rt = true ↔
      ∀ r ∈ is04.list rt,
        r.transport ∈ get_valid_transports connMajor connMinor →
          r.id ∈ is05.list rt := by
  simp [check_is04_in_is05, check0405Loop_eq_true_iff]

/-- Loop characterisation for `check_is05_in_is04`. -/
theorem check0504Loop_eq_true_iff (is04list : List NodeResource) (l : List String) :
    check0504Loop is04list l = true ↔
      ∀ id ∈ l, ∃ r ∈ is04list, r.id = id := by
  induction l with
  | nil => simp [check0504Loop]
  | cons id rest ih =>
      by_cases h : is04list.any (fun r => r.id = id)
      · simp only [check0504Loop, if_pos h, ih, List.forall_mem_cons]
        simp only [List.any_eq_true, decide_eq_true_eq] at h
        tauto
      · simp only [check0504Loop, if_neg h]
        simp only [List.any_eq_true, decide_eq_true_eq] at h
        push_neg at h
        simp only [Bool.false_eq_true, false_iff]
        intro hall
        obtain ⟨r, hr, hrid⟩ := hall id (List.mem_cons_self id rest)
        exact h r hr hrid

/-- C3: `check_is05_in_is04` returns true exactly when every cached IS-05 id
of the kind equals the id of some cached IS-04 resource of the kind; the loop
applies no transport filter, and its definition breaks at the first miss. -/
theorem c3_check_is05_in_is04_iff (is04 : Is04Resources) (is05 : Is05Resources)
    (rt : ResourceType) :
    check_is05_in_is04 is04 is05 rt = true ↔
      ∀ id ∈ is05.list rt, ∃ r ∈ is04.list rt, r.id = id := by
  simp [check_is05_in_is04, check0504Loop_eq_true_iff]

/-- The port normalisation written out in `compare_urls` computes the spec's
effective port. -/
theorem normPort_eq_specEffectivePort (u : UrlParsed) :
    (if u.port = none ∧ u.scheme = "http" then some 80
     else if u.port = none ∧ u.scheme = "https" then some 443
     else u.port) = specEffectivePort u := by
  rcases hp : u.port with _ | p
  · by_cases hh : u.scheme = "http" <;> by_cases hs : u.scheme = "https" <;>
      simp [specEffectivePort, hp, hh, hs]
  · simp [specEffectivePort, hp]

/-- `compare_urls` succeeds exactly when scheme, hostname, path and effective
port of the stripped-then-parsed URLs agree. -/
theorem compare_urls_eq_true_iff (url1 url2 : String) :
    compare_urls url1 url2 = true ↔
      ((urlparse (pyRstripSlash url1)).scheme = (urlparse (pyRstripSlash url2)).scheme ∧
       (urlparse (pyRstripSlash url1)).hostname = (urlparse (pyRstripSlash url2)).hostname ∧
       (urlparse (pyRstripSlash url1)).path = (urlparse (pyRstripSlash url2)).path ∧
       specEffectivePort (urlparse (pyRstripSlash url1))
         = specEffectivePort (urlparse (pyRstripSlash url2))) := by
  have e1 := normPort_eq_specEffectivePort (urlparse (pyRstripSlash url1))
  have e2 := normPort_eq_specEffectivePort (urlparse (pyRstripSlash url2))
  simp only [compare_urls]
  rw [e1, e2]
  split_ifs with h1 h2 h3 h4 <;> simp_all

/-- `compare_urls` is symmetric in its two arguments. -/
theorem compare_urls_symm (u1 u2 : String) :
    compare_urls u1 u2 = compare_urls u2 u1 := by
  have hiff : compare_urls u1 u2 = true ↔ compare_urls u2 u1 = true := by
    rw [compare_urls_eq_true_iff, compare_urls_eq_true_iff]
    constructor
    · rintro ⟨a, b, c, d⟩; exact ⟨a.symm, b.symm, c.symm, d.symm⟩
    · rintro ⟨a, b, c, d⟩; exact ⟨a.symm, b.symm, c.symm, d.symm⟩
  cases h12 : compare_urls u1 u2 <;> cases h21 : compare_urls u2 u1 <;> simp_all

set_option maxHeartbeats 1600000 in
/-- C6 (amended): `compare_urls` is true exactly when the stripped-then-parsed
scheme, hostname, path and effective ports agree (absent port counting as 80
for http and 443 for https); it is symmetric and normalises default ports as
the claim's examples state.  The claim's further sentence that query strings
and fragments never affect the result is dropped: they are not compared, but
they can affect the result through the trailing-slash strip (see the
counterexample). -/
theorem c6_compare_urls_amended (url1 url2 : String) :
    (compare_urls url1 url2 = true ↔
      ((urlparse (pyRstripSlash url1)).scheme = (urlparse (pyRstripSlash url2)).scheme ∧
       (urlparse (pyRstripSlash url1)).hostname = (urlparse (pyRstripSlash url2)).hostname ∧
       (urlparse (pyRstripSlash url1)).path = (urlparse (pyRstripSlash url2)).path ∧
       specEffectivePort (urlparse (pyRstripSlash url1))
         = specEffectivePort (urlparse (pyRstripSlash url2)))) ∧
    compare_urls url1 url2 = compare_urls url2 url1 ∧
    compare_urls "http://h/p" "http://h:80/p" = true ∧
    compare_urls "http://h/p" "https://h/p" = false := by
  exact ⟨compare_urls_eq_true_iff url1 url2, compare_urls_symm url1 url2,
    by decide, by decide⟩

/-- IS-04 resources whose id does not match the IS-05 id under scrutiny are
skipped by the inner loop of `activate_check_version`. -/
theorem acvInner_skip_unmatched (ca : String → Bool × String)
    (fs : String → FetchResult (List (String × JVal))) (cv : JVal → JVal → Int)
    (rt : ResourceType) (id : String) (pre rest : List NodeResource) (found : Bool)
    (h : ∀ p ∈ pre, p.id ≠ id) :
    acvInner ca fs cv rt id (pre ++ rest) found
      = acvInner ca fs cv rt id rest found := by
  induction pre with
  | nil => rfl
  | cons p ps ih =>
      have hp : p.id ≠ id := h p (List.mem_cons_self p ps)
      simp only [List.cons_append, acvInner, if_neg hp]
      exact ih (fun q hq => h q (List.mem_cons_of_mem p hq))

/-- C4: when `activate_check_version` processes a resource — activation
succeeded and the re-fetch produced a version — it returns the failure naming
the resource kind and id exactly when `compare_version(new, captured)` is not
1, and proceeds past the resource (here: to overall success) when it is 1. -/
theorem c4_version_must_compare_newer (ca : String → Bool × String)
    (fs : String → FetchResult (List (String × JVal))) (cv : JVal → JVal → Int)
    (is04 : Is04Resources) (is05 : Is05Resources) (rt : ResourceType)
    (id : String) (r : NodeResource) (pre rest04 : List NodeResource)
    (rest05 : List String) (currentVer newVer : JVal) (obj : List (String × JVal))
    (hlist : is04.list rt = pre ++ r :: rest04)
    (hpre : ∀ p ∈ pre, p.id ≠ id)
    (h05 : is05.list rt = id :: rest05)
    (hid : r.id = id) (hver : r.version = some currentVer)
    (hca : (ca id).1 = true) (hfs : fs id = .ok obj)
    (hobj : (obj.find? (fun kv => kv.1 = "version")).map (fun kv => kv.2)
              = some newVer) :
    (cv newVer currentVer ≠ 1 →
      activate_check_version ca fs cv is04 is05 rt
        = (false, versionUnchangedMsg rt id)) ∧
    (cv newVer currentVer = 1 → rest04 = [] → rest05 = [] →
      activate_check_version ca fs cv is04 is05 rt = (true, "")) := by
  have hstep : ∀ found : Bool, acvInner ca fs cv rt id (r :: rest04) found
      = (if cv newVer currentVer ≠ 1 then
           Except.error (false, versionUnchangedMsg rt id)
         else acvInner ca fs cv rt id rest04 true) := by
    intro found
    rcases hcae : ca id with ⟨cb, cs⟩
    rw [hcae] at hca
    simp only at hca
    subst hca
    simp only [acvInner, hid, if_pos rfl, hver, hcae, hfs, hobj, Bool.not_true,
      Bool.false_eq_true, if_false, if_true]
  constructor
  · intro hcv
    unfold activate_check_version
    rw [h05, hlist]
    simp only [acvOuter]
    rw [acvInner_skip_unmatched ca fs cv rt id pre (r :: rest04) false hpre,
      hstep false, if_pos hcv]
  · intro hcv h4 h5
    subst h4
    subst h5
    unfold activate_check_version
    rw [h05, hlist]
    simp only [acvOuter]
    rw [acvInner_skip_unmatched ca fs cv rt id pre (r :: []) false hpre,
      hstep false]
    simp [hcv, acvInner, acvOuter]

theorem c4_version_must_compare_newer_witness :
    activate_check_version (fun _ => (true, ""))
        (fun _ => FetchResult.ok [("version", JVal.str "v2")]) (fun _ _ => 0)
        ⟨[⟨"S1", "urn:x-nmos:transport:rtp", some (JVal.str "v1"), none, ""⟩], [], []⟩
        ⟨["S1"], [], []⟩ ResourceType.senders
      = (false, versionUnchangedMsg ResourceType.senders "S1") :=
  (c4_version_must_compare_newer (fun _ => (true, ""))
      (fun _ => FetchResult.ok [("version", JVal.str "v2")]) (fun _ _ => 0)
      ⟨[⟨"S1", "urn:x-nmos:transport:rtp", some (JVal.str "v1"), none, ""⟩], [], []⟩
      ⟨["S1"], [], []⟩ ResourceType.senders "S1"
      ⟨"S1", "urn:x-nmos:transport:rtp", some (JVal.str "v1"), none, ""⟩
      [] [] [] (JVal.str "v1") (JVal.str "v2") [("version", JVal.str "v2")]
      rfl (by simp) rfl rfl rfl rfl rfl rfl).1 (by decide)

/-- IS-04 resources whose id does not match the IS-05 id under scrutiny are
skipped by the inner loop of `activate_check_parked`. -/
theorem acpInner_skip_unmatched (nodeMajor nodeMinor : Nat) (rt : ResourceType)
    (id : String) (pre rest : List NodeResource) (found : Bool)
    (h : ∀ p ∈ pre, p.id ≠ id) :
    acpInner nodeMajor nodeMinor rt id (pre ++ rest) found
      = acpInner nodeMajor nodeMinor rt id rest found := by
  induction pre with
  | nil => rfl
  | cons p ps ih =>
      have hp : p.id ≠ id := h p (List.mem_cons_self p ps)
      simp only [List.cons_append, acpInner, if_neg hp]
      exact ih (fun q hq => h q (List.mem_cons_of_mem p hq))

/-- C5: once `activate_check_parked` reaches a matched resource after a
successful park and refresh, then under Node API version at least 1.2 it
fails unless the subscription's `active` value is exactly the boolean false
(true, absent, or any other value fails), under any version it fails when the
kind's cross-reference id value is not null, and with `active` exactly false
and a null cross-reference it succeeds. -/
theorem c5_parked_subscription_checks (park : String → Bool × String)
    (refetch : FetchResult (List NodeResource)) (nodeMajor nodeMinor : Nat)
    (is04 : Is04Resources) (is05 : Is05Resources) (rt : ResourceType)
    (id : String) (r : NodeResource) (sub : Subscription)
    (pre rest04 : List NodeResource)
    (hpark : parkAll park (is05.list rt) = none)
    (hvalid : (refresh_is04_resources refetch is04 rt).1.1 = true)
    (hlist : (refresh_is04_resources refetch is04 rt).2.list rt = pre ++ r :: rest04)
    (hpre : ∀ p ∈ pre, p.id ≠ id)
    (h05 : is05.list rt = [id])
    (hid : r.id = id) (hsub : r.subscription = some sub) :
    (versionAtLeast_1_2 nodeMajor nodeMinor →
      sub.active ≠ some (JVal.bool false) →
      (activate_check_parked park refetch nodeMajor nodeMinor is04 is05 rt).1.1
        = false) ∧
    (∀ v, crossId rt sub = some v → v ≠ JVal.null →
      (activate_check_parked park refetch nodeMajor nodeMinor is04 is05 rt).1.1
        = false) ∧
    (rest04 = [] → sub.active = some (JVal.bool false) →
      crossId rt sub = some JVal.null →
      (activate_check_parked park refetch nodeMajor nodeMinor is04 is05 rt).1
        = (true, "")) := by
  have hpark' : parkAll park [id] = none := by rw [← h05]; exact hpark
  have hout : (activate_check_parked park refetch nodeMajor nodeMinor is04 is05 rt).1
      = (match acpInner nodeMajor nodeMinor rt id (r :: rest04) false with
         | .error e => e
         | .ok found => if !found then (false, notFound04Msg id) else (true, "")) := by
    simp only [activate_check_parked, h05, hpark', hvalid, Bool.not_true,
      Bool.false_eq_true, if_false, hlist, acpOuter,
      acpInner_skip_unmatched nodeMajor nodeMinor rt id pre (r :: rest04) false hpre]
  have hinner : acpInner nodeMajor nodeMinor rt id (r :: rest04) false
      = (match (if nodeMajor > 1 ∨ (nodeMajor = 1 ∧ nodeMinor > 1) then
                  match sub.active with
                  | none => some ((false : Bool), subNotFoundMsg)
                  | some av =>
                      if av ≠ JVal.bool false then some (false, notInactiveMsg rt id)
                      else none
                else none) with
         | some e => Except.error e
         | none =>
             match crossId rt sub with
             | none => Except.error (false, subNotFoundMsg)
             | some v =>
                 if v ≠ JVal.null then Except.error (false, stillSubscribedMsg rt id)
                 else acpInner nodeMajor nodeMinor rt id rest04 true) := by
    simp only [acpInner, hid, if_pos rfl, hsub, if_true]
  refine ⟨?_, ?_, ?_⟩
  · intro hver hact
    have hg : nodeMajor > 1 ∨ (nodeMajor = 1 ∧ nodeMinor > 1) := by
      rcases hver with h | ⟨h1, h2⟩
      · exact Or.inl h
      · exact Or.inr ⟨h1, by omega⟩
    rw [hout, hinner, if_pos hg]
    rcases han : sub.active with _ | av
    · simp
    · have hav : av ≠ JVal.bool false := by
        intro h
        exact hact (by rw [han, h])
      simp [hav]
  · intro v hcross hv
    rw [hout, hinner]
    by_cases hg : nodeMajor > 1 ∨ (nodeMajor = 1 ∧ nodeMinor > 1)
    · rw [if_pos hg]
      rcases han : sub.active with _ | av
      · simp
      · by_cases hav : av = JVal.bool false
        · simp [hav, hcross, hv]
        · simp [hav]
    · rw [if_neg hg, hcross]
      simp [hv]
  · intro h4 hact hcross
    subst h4
    rw [hout, hinner, hact, hcross]
    by_cases hg : nodeMajor > 1 ∨ (nodeMajor = 1 ∧ nodeMinor > 1)
    · rw [if_pos hg]
      simp [acpInner]
    · rw [if_neg hg]
      simp [acpInner]

theorem c5_parked_subscription_checks_witness :
    (activate_check_parked (fun _ => (true, ""))
        (FetchResult.ok [⟨"R1", "urn:x-nmos:transport:rtp", none,
          some ⟨some (JVal.bool true), some JVal.null, none⟩, ""⟩]) 1 2
        ⟨[], [], []⟩ ⟨[], ["R1"], []⟩ ResourceType.receivers).1.1 = false :=
  (c5_parked_subscription_checks (fun _ => (true, ""))
      (FetchResult.ok [⟨"R1", "urn:x-nmos:transport:rtp", none,
        some ⟨some (JVal.bool true), some JVal.null, none⟩, ""⟩]) 1 2
      ⟨[], [], []⟩ ⟨[], ["R1"], []⟩ ResourceType.receivers "R1"
      ⟨"R1", "urn:x-nmos:transport:rtp", none,
        some ⟨some (JVal.bool true), some JVal.null, none⟩, ""⟩
      ⟨some (JVal.bool true), some JVal.null, none⟩ [] []
      rfl rfl rfl (by simp) rfl rfl rfl).1 (by decide) (by decide)

/-- C6 counterexample: appending the same query string to both arguments flips
the result of `compare_urls` (the trailing-slash strip no longer reaches the
path), so query strings do affect the result, contrary to the claim. -/
theorem c6_query_affects_result_counterexample :
    compare_urls "http://h/p/" "http://h/p" = true ∧
    compare_urls "http://h/p/?q=1" "http://h/p?q=1" = false :=
  ⟨by decide, by decide⟩

/-- C8 counterexample: Node API version 0.9 is strictly below 1.2, yet test 8
does not take the early NOT_APPLICABLE exit — the guard only fires for major
version 1 — and instead consults the Node API fetch, here failing on it. -/
theorem c8_below_1_2_guard_counterexample :
    versionBelow_1_2 0 9 ∧
    test_08 0 9 (FetchResult.invalid "error") (FetchResult.ok [])
        (fun _ => (true, "")) (FetchResult.ok []) ⟨[], [], []⟩ ⟨[], [], []⟩
      = Verdict.fail (nodeNotRespondMsg "error") ∧
    test_08 0 9 (FetchResult.invalid "error") (FetchResult.ok [])
        (fun _ => (true, "")) (FetchResult.ok []) ⟨[], [], []⟩ ⟨[], [], []⟩
      ≠ Verdict.na test08GuardMsg :=
  ⟨by decide, by decide, by decide⟩

/-- C8 (amended): test 8 takes its early NOT_APPLICABLE exit exactly for Node
API versions with major 1 and minor below 2: for those it returns the NA
verdict whatever the oracles and caches are (so before any fetch), and for
every other version — in particular every version at least 1.2, but also
major version 0 — it never returns that verdict. -/
theorem c8_test08_early_na_guard (nodeMajor nodeMinor : Nat)
    (f04 refetch : FetchResult (List NodeResource)) (f05 : FetchResult (List String))
    (park : String → Bool × String) (is04 : Is04Resources) (is05 : Is05Resources) :
    ((nodeMajor = 1 ∧ nodeMinor < 2) →
      test_08 nodeMajor nodeMinor f04 f05 park refetch is04 is05
        = Verdict.na test08GuardMsg) ∧
    (¬(nodeMajor = 1 ∧ nodeMinor < 2) →
      test_08 nodeMajor nodeMinor f04 f05 park refetch is04 is05
        ≠ Verdict.na test08GuardMsg) := by
  constructor
  · intro h
    simp [test_08, h]
  · intro h
    simp only [test_08, if_neg h]
    split_ifs <;> simp [test08GuardMsg, noSendersMsg]

theorem c8_test08_early_na_guard_witness :
    test_08 1 1 (FetchResult.ok []) (FetchResult.ok []) (fun _ => (true, ""))
        (FetchResult.ok []) ⟨[], [], []⟩ ⟨[], [], []⟩ = Verdict.na test08GuardMsg :=
  (c8_test08_early_na_guard 1 1 (FetchResult.ok []) (FetchResult.ok [])
      (FetchResult.ok []) (fun _ => (true, "")) ⟨[], [], []⟩ ⟨[], [], []⟩).1
    (by decide)

/-- Per-sender characterisation of the test 10 loop: PASS exactly when every
in-scope sender's two transport-file contents agree. -/
theorem test10Loop_pass_iff (fetchText : String → Option String) (connUrl : String)
    (connMajor connMinor : Nat) (l : List NodeResource) :
    test10Loop fetchText connUrl connMajor connMinor l = Verdict.pass ↔
      ∀ r ∈ l, r.transport ∈ get_valid_transports connMajor connMinor →
        (if r.manifest_href = "" then none else fetchText r.manifest_href)
          = fetchText (transportfileUrl connUrl r.id) := by
  induction l with
  | nil => simp [test10Loop]
  | cons r rest ih =>
      by_cases ht : r.transport ∈ get_valid_transports connMajor connMinor
      · by_cases heq : (if r.manifest_href = "" then none else fetchText r.manifest_href)
            = fetchText (transportfileUrl connUrl r.id)
        · simp [test10Loop, ht, heq, ih]
        · simp [test10Loop, ht, heq]
      · simp [test10Loop, ht, ih]

/-- C9: in test 10, once the senders cache is populated, the verdict is PASS
exactly when every in-scope sender's two transport-file contents agree, a
FAIL arising precisely from a disagreeing sender; an empty `manifest_href`
contributes no content on the IS-04 side and a failed transportfile GET none
on the IS-05 side, so a sender with both compares equal and causes no FAIL. -/
theorem c9_test10_matching_files (f04 : FetchResult (List NodeResource))
    (fetchText : String → Option String) (connUrl : String)
    (connMajor connMinor : Nat) (is04 : Is04Resources)
    (hreq : ResourceType.senders ∈ is04.requested) :
    (test_10 f04 fetchText connUrl connMajor connMinor is04 = Verdict.pass ↔
      ∀ r ∈ is04.list .senders,
        r.transport ∈ get_valid_transports connMajor connMinor →
          (if r.manifest_href = "" then none else fetchText r.manifest_href)
            = fetchText (transportfileUrl connUrl r.id)) ∧
    (∀ r ∈ is04.list .senders, r.manifest_href = "" →
      fetchText (transportfileUrl connUrl r.id) = none →
        (if r.manifest_href = "" then none else fetchText r.manifest_href) = none ∧
        fetchText (transportfileUrl connUrl r.id) = none) := by
  constructor
  · have hunfold : test_10 f04 fetchText connUrl connMajor connMinor is04
        = test10Loop fetchText connUrl connMajor connMinor (is04.list .senders) := by
      simp [test_10, get_is04_resources, hreq]
    rw [hunfold]
    exact test10Loop_pass_iff fetchText connUrl connMajor connMinor (is04.list .senders)
  · intro r hr hhref hfetch
    exact ⟨by simp [hhref], hfetch⟩

theorem c9_test10_matching_files_witness :
    test_10 (FetchResult.ok []) (fun _ => none) "http://x/" 1 1
        ⟨[⟨"S1", "urn:x-nmos:transport:rtp", none, none, ""⟩], [],
          [ResourceType.senders]⟩
      = Verdict.pass :=
  ((c9_test10_matching_files (FetchResult.ok []) (fun _ => none) "http://x/" 1 1
      ⟨[⟨"S1", "urn:x-nmos:transport:rtp", none, none, ""⟩], [],
        [ResourceType.senders]⟩
      (by decide)).1).mpr (by decide)

end IS0502
